import Mathlib

/-!
# Verification of the liveness-detection orchestration engine

Shallow embedding of the decision logic of the `faceliveness_detection`
repository (FlaskApi/app/services), together with proofs of the spec's
claims about it.

Numerics are modelled over `ℚ`; external capability providers (face
matcher, depth estimator, landmark extractor, speech transcriber) are
abstracted as inputs, exactly at the boundary where the Python code calls
them.  Every definition mirrors the corresponding Python function in
`src/FlaskApi/app/services`.
-/

namespace FaceLiveness

/-- Arithmetic mean of a list of rationals; `0` for the empty list.
Mirrors the Python idiom `np.mean(xs) if xs else 0.0` and
`total / n if n > 0 else 0.0`. -/
def qmean (l : List ℚ) : ℚ :=
  if l.length = 0 then 0 else l.sum / l.length

/-! ## Orchestrator (`liveness_service.py`, `run_complete_liveness_detection`)

A step invocation, as seen by the orchestrator, either returns a result
dict (`success` flag and `confidence`) or raises an exception that the
orchestrator catches in the per-step `except` block. -/

/-- Outcome of one step-service invocation, abstracting the step's
internals: `ok success confidence` models a returned result dict,
`exn` models an exception caught by the per-step `except` handler. -/
inductive SOut where
  | ok (success : Bool) (confidence : ℚ)
  | exn
deriving DecidableEq

/-- A step outcome counts as a failure for fail-fast purposes exactly when
the service returned a dict with `success == False`; an exception is caught
and recorded without aborting (lines 129-135, 170-176, 204-210, 239-245). -/
def isFailure : SOut → Bool
  | .ok s _ => !s
  | .exn => false

/-- Failure of the (optional) person-verification step input. -/
def refFailure : Option SOut → Bool
  | none => false
  | some o => isFailure o

/-- One entry of the orchestrator's `step_results` dict. -/
structure StepEntry where
  name : String
  passed : Bool
  confidence : ℚ
deriving DecidableEq

/-- The `results` dict returned by `run_complete_liveness_detection`.
Keys that the initial dict (lines 82-89) does not contain and that only
`results.update(...)` (lines 251-259) adds are modelled as `Option`. -/
structure PipelineResult where
  success : Bool
  is_live : Bool
  confidence : ℚ
  steps : List StepEntry
  passed_steps : Option Nat
  total_steps : Option Nat
  message : Option String
  error : Option String
deriving DecidableEq

/-- The initial `results` dict of lines 82-89. -/
def initResults : PipelineResult :=
  { success := false, is_live := false, confidence := 0, steps := [],
    passed_steps := none, total_steps := none, message := none, error := none }

/-- The early-return `results` dict on a fail-fast abort: the initial dict
with only `error` updated (lines 126-127, 167-168, 201-202, 236-237). -/
def abortResult (em : String) : PipelineResult :=
  { initResults with error := some em }

/-- Camera handle lifecycle events.  `get_camera` allocates the handle
(`self.camera = cv2.VideoCapture(...)`, camera_service.py line 22) and the
`finally` block's `release_camera` frees it (lines 47-55). -/
inductive CamEvent where
  | acquire
  | release
deriving DecidableEq

/-- Result of one orchestrator run: the returned dict, the list of step
services actually invoked (in order), and the camera lifecycle events. -/
structure RunTrace where
  result : PipelineResult
  invoked : List String
  camEvents : List CamEvent
deriving DecidableEq

/-- `confidence_threshold` from the service configuration (line 41). -/
def confidence_threshold : ℚ := 7/10

/-- The orchestrator's per-step loop body over the remaining steps.
Each element carries the step's name, its fail-fast error message, and its
outcome.  State: accumulated `step_results` entries, `passed_steps`,
`total_confidence`, and the list of invoked services.  On `success=False`
the orchestrator returns early (`abort`); on an exception it records a
failed entry and continues. -/
def foldSteps : List (String × String × SOut) → List StepEntry → Nat → ℚ →
    List String → (Option String) × List StepEntry × Nat × ℚ × List String
  | [], es, p, t, inv => (none, es, p, t, inv)
  | (n, em, o) :: rest, es, p, t, inv =>
    match o with
    | .ok true cv => foldSteps rest (es ++ [⟨n, true, cv⟩]) (p + 1) (t + cv) (inv ++ [n])
    | .ok false cv => (some em, es ++ [⟨n, false, cv⟩], p, t, inv ++ [n])
    | .exn => foldSteps rest (es ++ [⟨n, false, 0⟩]) p t (inv ++ [n])

/-- `run_complete_liveness_detection` (liveness_service.py lines 72-278).

Inputs: whether the camera opens (`avail`), the outcome of the
person-verification step when a reference image is supplied (`ref`;
`none` = no reference image, so the step is skipped with a synthetic
`passed=True, confidence=1.0` entry, lines 136-144), and the outcomes of
the three remaining steps.

The camera handle is allocated once at entry (even a failed open leaves
`self.camera` set, camera_service.py line 22) and released once by the
`finally` block on every exit path (lines 273-278). -/
def run_complete_liveness_detection (avail : Bool) (ref : Option SOut)
    (midas blink captcha : SOut) : RunTrace :=
  if avail then
    let init0 : List StepEntry × Nat × ℚ :=
      match ref with
      | none => ([⟨"person_verification", true, 1⟩], 1, 1)
      | some _ => ([], 0, 0)
    let stepsIn : List (String × String × SOut) :=
      (match ref with
       | some o => [("person_verification", "Person verification failed", o)]
       | none => []) ++
      [("midas_liveness", "2D/3D liveness check failed", midas),
       ("blink_detection", "Blink detection failed", blink),
       ("mouth_captcha", "Voice captcha verification failed", captcha)]
    match foldSteps stepsIn init0.1 init0.2.1 init0.2.2 [] with
    | (some em, _, _, _, inv) =>
      ⟨abortResult em, inv, [.acquire, .release]⟩
    | (none, es, p, t, inv) =>
      let conf : ℚ := if 0 < p then t / p else 0
      let live : Bool := decide (3 ≤ p) && decide (confidence_threshold ≤ conf)
      ⟨{ success := true, is_live := live, confidence := conf, steps := es,
         passed_steps := some p, total_steps := some 4,
         message := some (if live then "Liveness detection completed successfully"
                          else "Liveness detection failed"),
         error := none }, inv, [.acquire, .release]⟩
  else
    ⟨{ initResults with error := some "Camera not available" }, [],
     [.acquire, .release]⟩

/-- Confidences contributed by a passed step: the step's confidence when it
returned `success=True`, nothing otherwise. -/
def okConfs : SOut → List ℚ
  | .ok true cv => [cv]
  | _ => []

/-- Confidences contributed by the person-verification slot: a skipped step
contributes `1.0` (lines 143-144). -/
def refConfs : Option SOut → List ℚ
  | none => [1]
  | some o => okConfs o

/-- The confidences of the steps that passed, in pipeline order. -/
def passedConfs (ref : Option SOut) (midas blink captcha : SOut) : List ℚ :=
  refConfs ref ++ okConfs midas ++ okConfs blink ++ okConfs captcha

/-! ## Person verification (`person_verification_service.py`, `verify_person`)

The InsightFace provider is external: per sampled frame it yields a list of
detected faces.  For a frame with exactly one face the code computes
`similarity = np.dot(ref_emb, test_emb)` of the unit-normalised embeddings
(lines 107-108); a face observation is therefore abstracted by the
similarity value it would yield against the fixed reference embedding. -/

/-- `np.dot` on rational vectors. -/
def dotQ (a b : List ℚ) : ℚ :=
  (a.zipWith (fun x y => x * y) b).sum

/-- Squared euclidean norm; for a vector with `normSq v = 1` the code's
normalisation `v / np.linalg.norm(v)` is the identity. -/
def normSq (a : List ℚ) : ℚ := dotQ a a

/-- One camera sample inside the `verify_person` loop: `get_frame()` may
return `None` (line 90: `continue`, not counted), otherwise the provider
detects a list of faces, each abstracted by its similarity value. -/
inductive PFrame where
  | noFrame
  | frame (faces : List ℚ)
deriving DecidableEq

/-- Loop state of `verify_person`: the `verified` flag, the
`confidence_scores` list, and `frame_count`. -/
structure PVState where
  verified : Bool
  scores : List ℚ
  frames : Nat
deriving DecidableEq

/-- Body of the `verify_person` while-loop (lines 88-122): a `None` frame
is skipped; otherwise `frame_count` increments and the face count is
inspected — zero or multiple faces only draw an overlay message and the
loop continues; exactly one face appends its similarity and sets
`verified` when `similarity > 0.5`. -/
def pvProcess (s : PVState) (f : PFrame) : PVState :=
  match f with
  | .noFrame => s
  | .frame faces =>
    let s1 : PVState := { s with frames := s.frames + 1 }
    match faces with
    | [sim] =>
      { s1 with scores := s1.scores ++ [sim],
                verified := s1.verified || decide (sim > 1/2) }
    | _ => s1

/-- Result dict of `verify_person` (lines 130-136). -/
structure PVResult where
  success : Bool
  confidence : ℚ
  frames_processed : Nat
  confidence_scores : List ℚ
deriving DecidableEq

/-- `verify_person` (lines 47-136): fails up front when the model is not
loaded or the reference image does not contain exactly one face; otherwise
runs the frame loop and returns `success = verified` and
`confidence = np.mean(confidence_scores) if confidence_scores else 0.0`. -/
def verify_person (modelLoaded : Bool) (refFaceCount : Nat)
    (obs : List PFrame) : PVResult :=
  if !modelLoaded then ⟨false, 0, 0, []⟩
  else if refFaceCount ≠ 1 then ⟨false, 0, 0, []⟩
  else
    let st := obs.foldl pvProcess ⟨false, [], 0⟩
    ⟨st.verified, qmean st.scores, st.frames, st.scores⟩

/-- A frame observation that counts toward `frame_count` (a non-`None`
frame). -/
def isFrame : PFrame → Bool
  | .noFrame => false
  | .frame _ => true

/-- A frame with exactly one detected face whose similarity exceeds the
`0.5` threshold (line 111). -/
def oneFaceMatch : PFrame → Bool
  | .frame [sim] => decide (sim > 1/2)
  | _ => false

/-- The similarity scores `verify_person` records: one per frame with
exactly one detected face, in order. -/
def recordedScores : List PFrame → List ℚ
  | [] => []
  | .frame [sim] :: rest => sim :: recordedScores rest
  | _ :: rest => recordedScores rest

/-! ## Depth/pose liveness (`midas_liveness_service.py`) -/

/-- Return value of `liveness_decision`. -/
structure LDResult where
  is_live : Bool
  cond_depth : Bool
  cond_pnp : Bool
  confidence : ℚ
deriving DecidableEq

/-- `liveness_decision` (lines 109-128).  In this API-mode service
`cond_motion = True` and `motion_conf = 0.5` are constants; the per-frame
confidence is `depth_conf*0.4 + pnp_conf*0.3 + motion_conf*0.3`. -/
def liveness_decision (depth_std_face reproj_err : ℚ)
    (depth_thresh : ℚ) : LDResult :=
  let cond_depth := decide (depth_std_face > depth_thresh)
  let cond_pnp := decide (reproj_err < 12)
  let depth_conf := min 1 (depth_std_face / (depth_thresh * 2))
  let pnp_conf := max 0 (1 - reproj_err / 12)
  let motion_conf : ℚ := 1/2
  let total_confidence := depth_conf * (2/5) + pnp_conf * (3/10) + motion_conf * (3/10)
  ⟨cond_depth && cond_pnp && decide (total_confidence > 7/10),
   cond_depth, cond_pnp, total_confidence⟩

/-- `adaptive_depth_thresh = 3.0 * (0.8 + 0.4 * (brightness / 128.0))`
(line 199). -/
def adaptive_depth_thresh (brightness : ℚ) : ℚ :=
  3 * (4/5 + (2/5) * (brightness / 128))

/-- Motion confidence of the standalone legacy variant
(`legacy/midas_liveness.py` line 161):
`motion_conf = min(1.0, motion_var / (motion_thresh * 2))`, where
`motion_var` is the smoothed variance of yaw/pitch/roll over the last
`MOTION_WINDOW_SIZE = 10` frames.  The orchestrated service does not use
it; it is embedded here only to compare against the claimed formula. -/
def legacy_motion_conf (motion_var motion_thresh : ℚ) : ℚ :=
  min 1 (motion_var / (motion_thresh * 2))

/-- Per-frame confidence as the spec sentence describes it:
`0.4·depthScore + 0.3·poseScore + 0.3·motionScore` with `motionScore`
computed from the motion variance via the legacy formula. -/
def claimed_frame_confidence (depth_std_face reproj_err motion_var
    motion_thresh depth_thresh : ℚ) : ℚ :=
  (2/5) * min 1 (depth_std_face / (2 * depth_thresh)) +
  (3/10) * max 0 (1 - reproj_err / 12) +
  (3/10) * legacy_motion_conf motion_var motion_thresh

/-- Final decision of `run_liveness_check` (lines 283-288): with no votes
the step fails with confidence `0`; otherwise
`final_live = (sum(live_votes) / len(live_votes)) > 0.6` and
`final_confidence = np.mean(confidence_scores) if confidence_scores else 0`. -/
def run_liveness_final (live_votes : List Bool)
    (confidence_scores : List ℚ) : Bool × ℚ :=
  if live_votes.length = 0 then (false, 0)
  else (decide (((live_votes.countP (fun b => b) : ℚ)) / live_votes.length > 3/5),
        qmean confidence_scores)

/-! ## Blink detection (`blink_detection_service.py`, `detect_blinks`) -/

/-- `EYE_AR_THRESH = 0.22` (line 126). -/
def EYE_AR_THRESH : ℚ := 11/50

/-- The per-frame blink-counter update (lines 158-164), on the state
`(counter, total_blinks)`: below-threshold EAR increments the debounce
counter; otherwise a blink registers when the counter had reached
`EYE_AR_CONSEC_FRAMES = 2`, and the counter resets. -/
def blink_update (s : Nat × Nat) (ear : ℚ) : Nat × Nat :=
  if ear < EYE_AR_THRESH then (s.1 + 1, s.2)
  else (0, if 2 ≤ s.1 then s.2 + 1 else s.2)

/-- The debounce counter after processing a sequence of per-frame EAR
values. -/
def blink_counter (ears : List ℚ) : Nat :=
  (ears.foldl blink_update (0, 0)).1

/-- `total_blinks` after processing a sequence of per-frame EAR values. -/
def total_blinks (ears : List ℚ) : Nat :=
  (ears.foldl blink_update (0, 0)).2

/-- Length of the trailing run of below-threshold EAR values: the number of
consecutive frames, immediately preceding the current one, on which the
eyes were closed. -/
def trailing_below (ears : List ℚ) : Nat :=
  ears.foldl (fun c e => if e < EYE_AR_THRESH then c + 1 else 0) 0

/-- Blink-step confidence (lines 199-201):
`(min(1, total_blinks/2) + min(1, gaze_movements/3)) / 2`. -/
def blink_confidence (blinks gaze : Nat) : ℚ :=
  (min 1 ((blinks : ℚ) / 2) + min 1 ((gaze : ℚ) / 3)) / 2

/-! ## Voice captcha (`mouth_captcha_service.py`) -/

/-- Captcha-step confidence of `run_captcha_verification` (lines 203-206):
`(min(1, mar_std / 0.02) + (1.0 if matched else 0.0)) / 2`. -/
def captcha_confidence (mar_std : ℚ) (matched : Bool) : ℚ :=
  (min 1 (mar_std / (1/50)) + (if matched then 1 else 0)) / 2

/-- Splitter for Python `str.split()` (no argument): cut at whitespace
runs, dropping empty pieces.  `cur` accumulates the current token in
reverse. -/
def wordsGo : List Char → List Char → List String
  | [], cur => if cur.isEmpty then [] else [String.mk cur.reverse]
  | c :: rest, cur =>
    if c.isWhitespace then
      if cur.isEmpty then wordsGo rest []
      else String.mk cur.reverse :: wordsGo rest []
    else wordsGo rest (c :: cur)

/-- Python `s.split()`: whitespace-separated tokens. -/
def pySplit (s : String) : List String :=
  wordsGo s.data []

/-- Decimal value of a digit-character list;
`none` unless non-empty and all digits. -/
def digitsVal (cs : List Char) : Option Nat :=
  if cs.isEmpty then none
  else if cs.all Char.isDigit then
    some (cs.foldl (fun n c => n * 10 + (c.toNat - 48)) 0)
  else none

/-- Python `int(s)` on a whitespace-free token: optional sign followed by a
non-empty digit string; anything else raises, modelled as `none`
(digit-group underscores are not modelled). -/
def pyInt (s : String) : Option Int :=
  match s.data with
  | '-' :: rest => (digitsVal rest).map (fun n => -(n : Int))
  | '+' :: rest => (digitsVal rest).map (fun n => (n : Int))
  | cs => (digitsVal cs).map (fun n => (n : Int))

/-- Expression parsing of `verify_uploaded_audio` (lines 247-255):
`tokens = expression.replace('=', '').split()` — removing every `'='`
character, then splitting on whitespace — then
`a = int(tokens[0]); op = tokens[1]; b = int(tokens[2])` and
`answer = a + b if op == '+' else a - b`; any exception (missing tokens or
unparseable integers) yields `answer = None`. -/
def parse_expression (expr : String) : Option Int :=
  match pySplit (String.mk (expr.data.filter (fun ch => ch ≠ '='))) with
  | t0 :: t1 :: t2 :: _ =>
    match pyInt t0, pyInt t2 with
    | some a, some b => some (if t1 = "+" then a + b else a - b)
    | _, _ => none
  | _ => none

/-- Result dict of `verify_uploaded_audio` (fields relevant here). -/
structure UploadResult where
  success : Bool
  confidence : ℚ
  answer : Option String
deriving DecidableEq

/-- Decision logic of `verify_uploaded_audio` (lines 232-316).  The Vosk
transcription and word-to-number extraction are external; their combined
output is the `recognized_number` string (or `none`).  When no expression
is supplied the code generates a random fallback whose value is the
`fallback_answer` parameter.  `expected = str(abs(answer))` when an answer
exists; with `expected = None` (unparseable expression) success is mere
presence of a recognised number, with confidence `0.5` (lines 300-306). -/
def verify_uploaded_audio (modelLoaded : Bool) (expression : Option String)
    (fallback_answer : Int) (recognized_number : Option String) : UploadResult :=
  if !modelLoaded then ⟨false, 0, none⟩
  else
    let answer : Option Int :=
      match expression with
      | some e => parse_expression e
      | none => some fallback_answer
    let expected : Option String := answer.map (fun n => toString n.natAbs)
    match expected with
    | some exp =>
      ⟨decide (recognized_number = some exp),
       if recognized_number = some exp then 1
       else if recognized_number.isSome then 1/2 else 0,
       some exp⟩
    | none =>
      ⟨recognized_number.isSome,
       if recognized_number.isSome then 1/2 else 0,
       none⟩

/-! ## Helper lemmas about the orchestrator -/

/-- The step services invoked by the person-verification slot. -/
def refInvoked : Option SOut → List String
  | none => []
  | some _ => ["person_verification"]

theorem run_abort_person (cv : ℚ) (m b c : SOut) :
    run_complete_liveness_detection true (some (.ok false cv)) m b c =
      ⟨abortResult "Person verification failed", ["person_verification"],
       [.acquire, .release]⟩ := by
  simp [run_complete_liveness_detection, foldSteps]

theorem run_abort_midas {ref : Option SOut} {m : SOut} (b c : SOut)
    (href : refFailure ref = false) (hm : isFailure m = true) :
    run_complete_liveness_detection true ref m b c =
      ⟨abortResult "2D/3D liveness check failed",
       refInvoked ref ++ ["midas_liveness"], [.acquire, .release]⟩ := by
  rcases m with ⟨s, cv⟩ | _ <;> simp [isFailure] at hm
  subst hm
  rcases ref with _ | ⟨s, cv⟩ | _ <;>
    simp [refFailure, isFailure] at href <;>
    simp_all [run_complete_liveness_detection, foldSteps, refInvoked]

theorem run_abort_blink {ref : Option SOut} {m b : SOut} (c : SOut)
    (href : refFailure ref = false) (hm : isFailure m = false)
    (hb : isFailure b = true) :
    run_complete_liveness_detection true ref m b c =
      ⟨abortResult "Blink detection failed",
       refInvoked ref ++ ["midas_liveness", "blink_detection"],
       [.acquire, .release]⟩ := by
  rcases b with ⟨s, cv⟩ | _ <;> simp [isFailure] at hb
  subst hb
  rcases m with ⟨sm, cvm⟩ | _ <;> simp [isFailure] at hm
  · subst hm
    rcases ref with _ | ⟨s, cv⟩ | _ <;>
      simp [refFailure, isFailure] at href <;>
      simp_all [run_complete_liveness_detection, foldSteps, refInvoked]
  · rcases ref with _ | ⟨s, cv⟩ | _ <;>
      simp [refFailure, isFailure] at href <;>
      simp_all [run_complete_liveness_detection, foldSteps, refInvoked]

theorem run_abort_captcha {ref : Option SOut} {m b c : SOut}
    (href : refFailure ref = false) (hm : isFailure m = false)
    (hb : isFailure b = false) (hc : isFailure c = true) :
    run_complete_liveness_detection true ref m b c =
      ⟨abortResult "Voice captcha verification failed",
       refInvoked ref ++ ["midas_liveness", "blink_detection", "mouth_captcha"],
       [.acquire, .release]⟩ := by
  rcases c with ⟨s, cv⟩ | _ <;> simp [isFailure] at hc
  subst hc
  rcases m with ⟨sm, cvm⟩ | _ <;> simp [isFailure] at hm <;>
    rcases b with ⟨sb, cvb⟩ | _ <;> simp [isFailure] at hb <;>
    try subst hm <;>
    try subst hb
  all_goals
    rcases ref with _ | ⟨s, cv⟩ | _ <;>
      simp [refFailure, isFailure] at href <;>
      simp_all [run_complete_liveness_detection, foldSteps, refInvoked]


theorem run_final_confidence {ref : Option SOut} {m b c : SOut}
    (href : refFailure ref = false) (hm : isFailure m = false)
    (hb : isFailure b = false) (hc : isFailure c = false) :
    (run_complete_liveness_detection true ref m b c).result.confidence =
      qmean (passedConfs ref m b c) := by
  rcases ref with _ | ⟨(_|_), cvr⟩ | _ <;>
  rcases m with ⟨(_|_), cvm⟩ | _ <;>
  rcases b with ⟨(_|_), cvb⟩ | _ <;>
  rcases c with ⟨(_|_), cvc⟩ | _ <;>
  (try simp_all [refFailure, isFailure]) <;>
  (try (simp [run_complete_liveness_detection, foldSteps, passedConfs, refConfs,
       okConfs, qmean])) <;>
  ring_nf

theorem run_final_success {ref : Option SOut} {m b c : SOut}
    (href : refFailure ref = false) (hm : isFailure m = false)
    (hb : isFailure b = false) (hc : isFailure c = false) :
    (run_complete_liveness_detection true ref m b c).result.success = true := by
  rcases ref with _ | ⟨(_|_), cvr⟩ | _ <;>
  rcases m with ⟨(_|_), cvm⟩ | _ <;>
  rcases b with ⟨(_|_), cvb⟩ | _ <;>
  rcases c with ⟨(_|_), cvc⟩ | _ <;>
  (try simp_all [refFailure, isFailure]) <;>
  simp [run_complete_liveness_detection, foldSteps]

theorem run_final_counts {ref : Option SOut} {m b c : SOut}
    (href : refFailure ref = false) (hm : isFailure m = false)
    (hb : isFailure b = false) (hc : isFailure c = false) :
    (run_complete_liveness_detection true ref m b c).result.passed_steps =
      some (passedConfs ref m b c).length ∧
    (run_complete_liveness_detection true ref m b c).result.total_steps = some 4 ∧
    (run_complete_liveness_detection true ref m b c).result.steps.length = 4 := by
  rcases ref with _ | ⟨(_|_), cvr⟩ | _ <;>
  rcases m with ⟨(_|_), cvm⟩ | _ <;>
  rcases b with ⟨(_|_), cvb⟩ | _ <;>
  rcases c with ⟨(_|_), cvc⟩ | _ <;>
  (try simp_all [refFailure, isFailure]) <;>
  simp [run_complete_liveness_detection, foldSteps, passedConfs, refConfs, okConfs]

theorem run_final_is_live {ref : Option SOut} {m b c : SOut}
    (href : refFailure ref = false) (hm : isFailure m = false)
    (hb : isFailure b = false) (hc : isFailure c = false) :
    ((run_complete_liveness_detection true ref m b c).result.is_live = true ↔
      3 ≤ (passedConfs ref m b c).length ∧
      confidence_threshold ≤
        (run_complete_liveness_detection true ref m b c).result.confidence) := by
  rcases ref with _ | ⟨(_|_), cvr⟩ | _ <;>
  rcases m with ⟨(_|_), cvm⟩ | _ <;>
  rcases b with ⟨(_|_), cvb⟩ | _ <;>
  rcases c with ⟨(_|_), cvc⟩ | _ <;>
  (try simp_all [refFailure, isFailure]) <;>
  simp [run_complete_liveness_detection, foldSteps, passedConfs, refConfs,
    okConfs, Bool.and_eq_true, decide_eq_true_iff]

/-! ## Helper lemmas about the person-verification loop -/

theorem pv_foldl_verified (obs : List PFrame) (s : PVState) :
    (obs.foldl pvProcess s).verified = (s.verified || obs.any oneFaceMatch) := by
  induction obs generalizing s with
  | nil => simp
  | cons f rest ih =>
    rcases f with _ | faces
    · simp [pvProcess, oneFaceMatch, ih]
    · rcases faces with _ | ⟨x, _ | ⟨y, tl⟩⟩ <;>
        simp [pvProcess, oneFaceMatch, ih, Bool.or_assoc]

theorem pv_foldl_frames (obs : List PFrame) (s : PVState) :
    (obs.foldl pvProcess s).frames = s.frames + (obs.filter isFrame).length := by
  induction obs generalizing s with
  | nil => simp
  | cons f rest ih =>
    rcases f with _ | faces
    · simp [pvProcess, isFrame, ih]
    · rcases faces with _ | ⟨x, _ | ⟨y, tl⟩⟩ <;>
        simp [pvProcess, isFrame, ih] <;> omega

theorem pv_foldl_scores (obs : List PFrame) (s : PVState) :
    (obs.foldl pvProcess s).scores = s.scores ++ recordedScores obs := by
  induction obs generalizing s with
  | nil => simp [recordedScores]
  | cons f rest ih =>
    rcases f with _ | faces
    · simp [pvProcess, recordedScores, ih]
    · rcases faces with _ | ⟨x, _ | ⟨y, tl⟩⟩ <;>
        simp [pvProcess, recordedScores, ih]

/-- Bounding the mean: when every element of the list lies in `[lo, hi]`
and `lo ≤ 0 ≤ hi` (so that the empty-list mean `0` also qualifies), the
mean lies in `[lo, hi]`. -/
theorem qmean_bounds {l : List ℚ} {lo hi : ℚ} (hlo : lo ≤ 0) (hhi : 0 ≤ hi)
    (h : ∀ x ∈ l, lo ≤ x ∧ x ≤ hi) : lo ≤ qmean l ∧ qmean l ≤ hi := by
  unfold qmean
  by_cases hl : l.length = 0
  · simp [hl, hlo, hhi]
  · have hn : 0 < (l.length : ℚ) := by
      have := Nat.pos_of_ne_zero hl
      exact_mod_cast this
    have hsum_le : l.sum ≤ l.length • hi :=
      List.sum_le_card_nsmul l hi (fun x hx => (h x hx).2)
    have hle_sum : l.length • lo ≤ l.sum :=
      List.card_nsmul_le_sum l lo (fun x hx => (h x hx).1)
    rw [nsmul_eq_mul] at hsum_le hle_sum
    constructor
    · simp only [hl, if_false]
      rw [le_div_iff₀ hn]
      linarith [hle_sum]
    · simp only [hl, if_false]
      rw [div_le_iff₀ hn]
      linarith [hsum_le]

/-- When some step fails, the run returns an abort result (the first
failing step's one). -/
theorem run_abort_exists {ref : Option SOut} {m b c : SOut}
    (h : (refFailure ref || isFailure m || isFailure b || isFailure c) = true) :
    ∃ em inv, run_complete_liveness_detection true ref m b c =
      ⟨abortResult em, inv, [CamEvent.acquire, CamEvent.release]⟩ := by
  by_cases h1 : refFailure ref = true
  · rcases ref with _ | ⟨(_|_), cv⟩ | _ <;> simp [refFailure, isFailure] at h1
    exact ⟨_, _, run_abort_person cv m b c⟩
  · replace h1 : refFailure ref = false := by simpa using h1
    by_cases h2 : isFailure m = true
    · exact ⟨_, _, run_abort_midas b c h1 h2⟩
    · replace h2 : isFailure m = false := by simpa using h2
      by_cases h3 : isFailure b = true
      · exact ⟨_, _, run_abort_blink c h1 h2 h3⟩
      · replace h3 : isFailure b = false := by simpa using h3
        have h4 : isFailure c = true := by
          simpa [h1, h2, h3] using h
        exact ⟨_, _, run_abort_captcha h1 h2 h3 h4⟩

/-! ## Claim theorems about the orchestrator -/

/-- C1: for every run of the full pipeline that reaches the final
aggregation (no step returned a failure, which would abort the pipeline
before the verdict is computed), the returned result has `is_live = true`
iff at least 3 steps passed and the confidence is at least `0.7`, where the
confidence is the arithmetic mean of the confidences of the passed steps
only. -/
theorem pipeline_verdict_iff (ref : Option SOut) (m b c : SOut)
    (href : refFailure ref = false) (hm : isFailure m = false)
    (hb : isFailure b = false) (hc : isFailure c = false) :
    (run_complete_liveness_detection true ref m b c).result.confidence =
      qmean (passedConfs ref m b c) ∧
    ((run_complete_liveness_detection true ref m b c).result.is_live = true ↔
      3 ≤ (passedConfs ref m b c).length ∧
      confidence_threshold ≤
        (run_complete_liveness_detection true ref m b c).result.confidence) :=
  ⟨run_final_confidence href hm hb hc, run_final_is_live href hm hb hc⟩

/-- Witness for C1: a concrete run with all four steps passing. -/
theorem pipeline_verdict_iff_witness :
    (run_complete_liveness_detection true none (.ok true (9/10)) (.ok true (4/5))
        (.ok true 1)).result.confidence =
      qmean (passedConfs none (.ok true (9/10)) (.ok true (4/5)) (.ok true 1)) ∧
    ((run_complete_liveness_detection true none (.ok true (9/10)) (.ok true (4/5))
        (.ok true 1)).result.is_live = true ↔
      3 ≤ (passedConfs none (.ok true (9/10)) (.ok true (4/5)) (.ok true 1)).length ∧
      confidence_threshold ≤
        (run_complete_liveness_detection true none (.ok true (9/10)) (.ok true (4/5))
          (.ok true 1)).result.confidence) :=
  pipeline_verdict_iff none (.ok true (9/10)) (.ok true (4/5)) (.ok true 1)
    rfl rfl rfl rfl

/-- C2 counterexample: when a step fails, the pipeline does abort (only the
failing step was invoked and `error` names it), but the returned result has
`success = false`, not `success = true` as the claim states: the early
`return results` returns the initial dict, whose `success` field was never
updated. -/
theorem fail_fast_success_counterexample :
    (run_complete_liveness_detection true none (.ok false (1/2)) (.ok true 1)
      (.ok true 1)).result.success = false ∧
    (run_complete_liveness_detection true none (.ok false (1/2)) (.ok true 1)
      (.ok true 1)).result.error = some "2D/3D liveness check failed" ∧
    (run_complete_liveness_detection true none (.ok false (1/2)) (.ok true 1)
      (.ok true 1)).invoked = ["midas_liveness"] := by
  norm_num [run_complete_liveness_detection, foldSteps, abortResult, initResults]

/-- C2 amended: when a step returns `passed = false` the pipeline aborts
immediately — no later step service is invoked — and the returned result is
the initial dict with only `error` set to a fixed message naming the
failing step; in particular `success = false` (not `true`) and
`is_live = false`. -/
theorem fail_fast_aborts_with_failure_result (ref : Option SOut) (m b c : SOut) :
    (∀ cv : ℚ, ref = some (.ok false cv) →
      run_complete_liveness_detection true ref m b c =
        ⟨abortResult "Person verification failed", ["person_verification"],
         [.acquire, .release]⟩) ∧
    (refFailure ref = false → isFailure m = true →
      run_complete_liveness_detection true ref m b c =
        ⟨abortResult "2D/3D liveness check failed",
         refInvoked ref ++ ["midas_liveness"], [.acquire, .release]⟩) ∧
    (refFailure ref = false → isFailure m = false → isFailure b = true →
      run_complete_liveness_detection true ref m b c =
        ⟨abortResult "Blink detection failed",
         refInvoked ref ++ ["midas_liveness", "blink_detection"],
         [.acquire, .release]⟩) ∧
    (refFailure ref = false → isFailure m = false → isFailure b = false →
     isFailure c = true →
      run_complete_liveness_detection true ref m b c =
        ⟨abortResult "Voice captcha verification failed",
         refInvoked ref ++ ["midas_liveness", "blink_detection", "mouth_captcha"],
         [.acquire, .release]⟩) := by
  refine ⟨?_, ?_, ?_, ?_⟩
  · rintro cv rfl
    exact run_abort_person cv m b c
  · intro h1 h2
    exact run_abort_midas b c h1 h2
  · intro h1 h2 h3
    exact run_abort_blink c h1 h2 h3
  · intro h1 h2 h3 h4
    exact run_abort_captcha h1 h2 h3 h4

/-- Witness for the amended C2: a concrete run whose blink step fails. -/
theorem fail_fast_aborts_with_failure_result_witness :
    run_complete_liveness_detection true none (.ok true 1) (.ok false (1/4))
        (.ok true 1) =
      ⟨abortResult "Blink detection failed",
       ["midas_liveness", "blink_detection"], [.acquire, .release]⟩ :=
  (fail_fast_aborts_with_failure_result none (.ok true 1) (.ok false (1/4))
    (.ok true 1)).2.2.1 rfl rfl rfl

/-- C5: the camera handle is allocated exactly once per run and released
exactly once, on every exit path — normal completion, fail-fast abort, and
the camera-unavailable error path (where `get_camera` still stores the
unopened `VideoCapture` object in `self.camera`, which the `finally`
block's `release_camera` then releases). -/
theorem camera_release_once (avail : Bool) (ref : Option SOut)
    (m b c : SOut) :
    (run_complete_liveness_detection avail ref m b c).camEvents =
      [CamEvent.acquire, CamEvent.release] := by
  cases avail
  · rfl
  · simp only [run_complete_liveness_detection]
    split <;> (try split) <;> rfl

/-- C10 counterexample: a run whose depth/pose step raises an exception is
recorded as a failed entry and the pipeline continues, so the returned
result has populated `steps`, `passed_steps` and `total_steps` fields even
though not all four steps ran to completion. -/
theorem abort_empty_steps_counterexample :
    (run_complete_liveness_detection true none .exn (.ok true 1)
      (.ok true 1)).result.passed_steps = some 3 ∧
    (run_complete_liveness_detection true none .exn (.ok true 1)
      (.ok true 1)).result.total_steps = some 4 ∧
    (run_complete_liveness_detection true none .exn (.ok true 1)
      (.ok true 1)).result.steps.length = 4 := by
  norm_num [run_complete_liveness_detection, foldSteps]

/-- C10 amended: on every fail-fast abort the returned result has an empty
`steps` map, `confidence = 0.0`, `is_live = false`, and no `passed_steps`
or `total_steps` fields; those fields are populated exactly when no step
returns a failure — steps that raise exceptions are recorded as failed
entries and do not prevent population. -/
theorem abort_empty_steps_amended (ref : Option SOut) (m b c : SOut) :
    ((refFailure ref || isFailure m || isFailure b || isFailure c) = true →
      (run_complete_liveness_detection true ref m b c).result.steps = [] ∧
      (run_complete_liveness_detection true ref m b c).result.confidence = 0 ∧
      (run_complete_liveness_detection true ref m b c).result.is_live = false ∧
      (run_complete_liveness_detection true ref m b c).result.passed_steps = none ∧
      (run_complete_liveness_detection true ref m b c).result.total_steps = none) ∧
    (refFailure ref = false → isFailure m = false → isFailure b = false →
     isFailure c = false →
      (run_complete_liveness_detection true ref m b c).result.passed_steps =
        some (passedConfs ref m b c).length ∧
      (run_complete_liveness_detection true ref m b c).result.total_steps =
        some 4 ∧
      (run_complete_liveness_detection true ref m b c).result.steps.length = 4) := by
  constructor
  · intro h
    obtain ⟨em, inv, heq⟩ := run_abort_exists h
    rw [heq]
    simp [abortResult, initResults]
  · intro h1 h2 h3 h4
    exact run_final_counts h1 h2 h3 h4

/-- Witness for the amended C10: a concrete aborting run (person step
fails) and its empty result fields. -/
theorem abort_empty_steps_amended_witness :
    (run_complete_liveness_detection true (some (.ok false (3/5))) (.ok true 1)
      (.ok true 1) (.ok true 1)).result.steps = [] ∧
    (run_complete_liveness_detection true (some (.ok false (3/5))) (.ok true 1)
      (.ok true 1) (.ok true 1)).result.confidence = 0 ∧
    (run_complete_liveness_detection true (some (.ok false (3/5))) (.ok true 1)
      (.ok true 1) (.ok true 1)).result.is_live = false ∧
    (run_complete_liveness_detection true (some (.ok false (3/5))) (.ok true 1)
      (.ok true 1) (.ok true 1)).result.passed_steps = none ∧
    (run_complete_liveness_detection true (some (.ok false (3/5))) (.ok true 1)
      (.ok true 1) (.ok true 1)).result.total_steps = none :=
  (abort_empty_steps_amended (some (.ok false (3/5))) (.ok true 1) (.ok true 1)
    (.ok true 1)).1 rfl

/-! ## Claim theorems about the person-verification step -/

/-- C3 counterexample: a first frame with zero detected faces does not
terminate `verify_person` — the following frame is still processed
(`frames_processed = 2`) and, its similarity exceeding `0.5`, the step
succeeds, contradicting the claimed immediate terminal failure. -/
theorem person_wrong_face_count_counterexample :
    (verify_person true 1 [PFrame.frame [], PFrame.frame [9/10]]).success = true ∧
    (verify_person true 1 [PFrame.frame [], PFrame.frame [9/10]]).frames_processed = 2 := by
  norm_num [verify_person, pvProcess, qmean]

/-- C3 amended: a frame with zero or two-or-more detected faces is skipped
(it records no similarity) and the loop continues for the full duration:
every non-`None` frame is processed, the step passes iff some frame had
exactly one face with similarity above `0.5`, and the confidence is the
mean similarity over the one-face frames. -/
theorem person_wrong_face_count_amended (obs : List PFrame) :
    (verify_person true 1 obs).frames_processed = (obs.filter isFrame).length ∧
    (verify_person true 1 obs).success = obs.any oneFaceMatch ∧
    (verify_person true 1 obs).confidence = qmean (recordedScores obs) := by
  refine ⟨?_, ?_, ?_⟩ <;> simp [verify_person]
  · simpa using pv_foldl_frames obs ⟨false, [], 0⟩
  · simpa using pv_foldl_verified obs ⟨false, [], 0⟩
  · have := pv_foldl_scores obs ⟨false, [], 0⟩
    simp at this
    rw [this]

/-- C4 counterexample: the person-verification confidence is not clamped to
`[0, 1]`: for a frame whose single detected face has the unit embedding
`[-1, 0]` against the unit reference embedding `[1, 0]` (both already
unit-norm, so the code's normalisation is the identity), the cosine
similarity `np.dot` is `-1` and the step's confidence is negative. -/
theorem confidence_range_counterexample :
    normSq [1, 0] = 1 ∧ normSq [-1, 0] = 1 ∧
    dotQ [1, 0] [-1, 0] = -1 ∧
    (verify_person true 1 [PFrame.frame [dotQ [1, 0] [-1, 0]]]).confidence < 0 := by
  norm_num [normSq, dotQ, verify_person, pvProcess, qmean]

/-- C4 amended: the person-verification confidence is the unclamped mean of
the recorded cosine similarities, so it lies in `[-1, 1]` when each
similarity does (and can be negative); the depth/pose per-frame confidence
lies in `[0, 1]`, and so does the depth/pose step-level confidence — the
mean of the per-frame confidences — whenever its per-frame confidences do;
the blink and captcha step confidences lie in `[0, 1]`, and the pipeline
confidence lies in `[0, 1]` whenever the passed steps' confidences do. -/
theorem confidence_range_amended :
    (∀ obs : List PFrame, (∀ x ∈ recordedScores obs, -1 ≤ x ∧ x ≤ 1) →
      -1 ≤ (verify_person true 1 obs).confidence ∧
        (verify_person true 1 obs).confidence ≤ 1) ∧
    (∀ ds r br : ℚ, 0 ≤ ds → 0 ≤ r → 0 ≤ br →
      0 ≤ (liveness_decision ds r (adaptive_depth_thresh br)).confidence ∧
        (liveness_decision ds r (adaptive_depth_thresh br)).confidence ≤ 1) ∧
    (∀ (votes : List Bool) (confs : List ℚ),
      (∀ x ∈ confs, 0 ≤ x ∧ x ≤ 1) →
      0 ≤ (run_liveness_final votes confs).2 ∧
        (run_liveness_final votes confs).2 ≤ 1) ∧
    (∀ blinks gaze : Nat,
      0 ≤ blink_confidence blinks gaze ∧ blink_confidence blinks gaze ≤ 1) ∧
    (∀ (mar : ℚ) (matched : Bool), 0 ≤ mar →
      0 ≤ captcha_confidence mar matched ∧ captcha_confidence mar matched ≤ 1) ∧
    (∀ (avail : Bool) (ref : Option SOut) (m b c : SOut),
      (∀ x ∈ passedConfs ref m b c, 0 ≤ x ∧ x ≤ 1) →
      0 ≤ (run_complete_liveness_detection avail ref m b c).result.confidence ∧
        (run_complete_liveness_detection avail ref m b c).result.confidence ≤ 1) := by
  refine ⟨?_, ?_, ?_, ?_, ?_, ?_⟩
  · intro obs h
    have hs : (verify_person true 1 obs).confidence = qmean (recordedScores obs) := by
      simp [verify_person]
      have := pv_foldl_scores obs ⟨false, [], 0⟩
      simp at this
      rw [this]
    rw [hs]
    exact qmean_bounds (by norm_num) (by norm_num) h
  · intro ds r br hds hr hbr
    have ht : (12:ℚ)/5 ≤ adaptive_depth_thresh br := by
      unfold adaptive_depth_thresh
      have : 0 ≤ br / 128 := by positivity
      linarith
    have ht0 : 0 < adaptive_depth_thresh br * 2 := by linarith
    have hdc0 : 0 ≤ min 1 (ds / (adaptive_depth_thresh br * 2)) :=
      le_min (by norm_num) (by positivity)
    have hdc1 : min 1 (ds / (adaptive_depth_thresh br * 2)) ≤ 1 := min_le_left _ _
    have hpc0 : (0:ℚ) ≤ max 0 (1 - r / 12) := le_max_left _ _
    have hpc1 : max 0 (1 - r / 12) ≤ 1 := by
      apply max_le (by norm_num)
      have : 0 ≤ r / 12 := by positivity
      linarith
    unfold liveness_decision
    constructor <;> simp only [] <;> linarith
  · intro votes confs h
    unfold run_liveness_final
    by_cases hv : votes.length = 0
    · simp [hv]
    · rw [if_neg hv]
      exact qmean_bounds (by norm_num) (by norm_num) h
  · intro blinks gaze
    have hb0 : 0 ≤ min 1 ((blinks : ℚ) / 2) := le_min (by norm_num) (by positivity)
    have hb1 : min 1 ((blinks : ℚ) / 2) ≤ 1 := min_le_left _ _
    have hg0 : 0 ≤ min 1 ((gaze : ℚ) / 3) := le_min (by norm_num) (by positivity)
    have hg1 : min 1 ((gaze : ℚ) / 3) ≤ 1 := min_le_left _ _
    unfold blink_confidence
    constructor <;> linarith
  · intro mar matched hmar
    have hm0 : 0 ≤ min 1 (mar / (1/50)) := le_min (by norm_num) (by positivity)
    have hm1 : min 1 (mar / (1/50)) ≤ 1 := min_le_left _ _
    have ha0 : (0:ℚ) ≤ if matched then 1 else 0 := by split <;> norm_num
    have ha1 : (if matched then (1:ℚ) else 0) ≤ 1 := by split <;> norm_num
    unfold captcha_confidence
    constructor <;> linarith
  · intro avail ref m b c h
    cases avail
    · simp [run_complete_liveness_detection, initResults]
    · by_cases hf : (refFailure ref || isFailure m || isFailure b || isFailure c) = true
      · obtain ⟨em, inv, heq⟩ := run_abort_exists hf
        rw [heq]
        simp [abortResult, initResults]
      · have h1 : refFailure ref = false := by
          cases hx : refFailure ref
          · rfl
          · exact absurd (by simp [hx]) hf
        have h2 : isFailure m = false := by
          cases hx : isFailure m
          · rfl
          · exact absurd (by simp [hx]) hf
        have h3 : isFailure b = false := by
          cases hx : isFailure b
          · rfl
          · exact absurd (by simp [hx]) hf
        have h4 : isFailure c = false := by
          cases hx : isFailure c
          · rfl
          · exact absurd (by simp [hx]) hf
        have := run_final_confidence h1 h2 h3 h4
        rw [this]
        exact qmean_bounds (by norm_num) (by norm_num) h

/-- Witness for the amended C4: concrete bounds at a frame with
`depth_std = 1`, `reproj_err = 2`, `brightness = 128`, and for a concrete
one-vote depth/pose run with per-frame confidences `[3/20, 1]`. -/
theorem confidence_range_amended_witness :
    (0 ≤ (liveness_decision 1 2 (adaptive_depth_thresh 128)).confidence ∧
     (liveness_decision 1 2 (adaptive_depth_thresh 128)).confidence ≤ 1) ∧
    (0 ≤ (run_liveness_final [true] [3/20, 1]).2 ∧
     (run_liveness_final [true] [3/20, 1]).2 ≤ 1) :=
  ⟨confidence_range_amended.2.1 1 2 128 (by norm_num) (by norm_num) (by norm_num),
   confidence_range_amended.2.2.1 [true] [3/20, 1]
     (by intro x hx; simp at hx; rcases hx with rfl | rfl <;> norm_num)⟩

/-! ## Claim theorems about the depth/pose step -/

/-- The blink-debounce counter component of the fold state equals the
simple trailing-below-threshold counter. -/
theorem blink_counter_eq_trailing (ears : List ℚ) (s : Nat × Nat) :
    (ears.foldl blink_update s).1 =
      ears.foldl (fun c e => if e < EYE_AR_THRESH then c + 1 else 0) s.1 := by
  induction ears generalizing s with
  | nil => rfl
  | cons e rest ih =>
    simp only [List.foldl]
    rw [ih]
    congr 1
    unfold blink_update
    split <;> rfl

/-- C6 counterexample: the orchestrated service's per-frame confidence uses
the constant motion score `0.5`, not one computed from the motion variance:
at `depth_std = 0`, `reproj_err = 12`, `brightness = 128`, and a motion
window of constant pose (variance `0`), the claimed formula gives `0` while
the code gives `0.15`. -/
theorem frame_confidence_motion_counterexample :
    (liveness_decision 0 12 (adaptive_depth_thresh 128)).confidence ≠
      claimed_frame_confidence 0 12 0 (1/5) (adaptive_depth_thresh 128) := by
  norm_num [liveness_decision, claimed_frame_confidence, legacy_motion_conf,
    adaptive_depth_thresh]

/-- C6 amended: the per-frame confidence equals
`0.4·min(1, depthStd/(2·depthThresh)) + 0.3·max(0, 1 − reprojErr/12) +
0.3·0.5`, with `depthThresh = 3.0·(0.8 + 0.4·brightness/128)`: the motion
score is the constant `0.5` in this API-mode service (the variance-based
motion score exists only in the standalone legacy variant). -/
theorem frame_confidence_amended (ds r br : ℚ) :
    (liveness_decision ds r (adaptive_depth_thresh br)).confidence =
      (2/5) * min 1 (ds / (2 * adaptive_depth_thresh br)) +
      (3/10) * max 0 (1 - r / 12) + (3/10) * (1/2) ∧
    adaptive_depth_thresh br = 3 * (4/5 + (2/5) * (br / 128)) := by
  constructor
  · unfold liveness_decision
    simp only []
    rw [mul_comm (adaptive_depth_thresh br) 2]
    ring
  · rfl

/-- C7: with at least one vote, the depth/pose step passes exactly when the
live-vote ratio is strictly greater than `0.6`. -/
theorem midas_vote_threshold (votes : List Bool) (confs : List ℚ)
    (h : votes ≠ []) :
    ((run_liveness_final votes confs).1 = true ↔
      (3:ℚ)/5 < (votes.countP (fun x => x) : ℚ) / votes.length) := by
  unfold run_liveness_final
  rw [if_neg (by simpa [List.length_eq_zero] using h)]
  simp [decide_eq_true_iff]

/-- Witness for C7: a ratio of `13/20 = 0.65` passes and a ratio of exactly
`12/20 = 0.60` fails (strict boundary). -/
theorem midas_vote_threshold_witness :
    (run_liveness_final (List.replicate 13 true ++ List.replicate 7 false) []).1 = true ∧
    (run_liveness_final (List.replicate 12 true ++ List.replicate 8 false) []).1 = false := by
  constructor
  · exact (midas_vote_threshold _ _ (by simp)).mpr
      (by norm_num [List.countP, List.countP.go, List.replicate])
  · have h := midas_vote_threshold (List.replicate 12 true ++ List.replicate 8 false)
      [] (by simp)
    rw [Bool.eq_false_iff]
    intro hc
    have h2 := h.mp hc
    norm_num [List.countP, List.countP.go, List.replicate] at h2

/-! ## Claim theorems about the blink step -/

/-- C8: appending a frame to an EAR sequence registers exactly one new
blink precisely when that frame's EAR is back at or above the `0.22`
threshold after at least `2` consecutive below-threshold frames; and the
sequence `[0.30, 0.18, 0.18, 0.30]` yields exactly `1` blink. -/
theorem blink_debounce_characterization :
    (∀ (xs : List ℚ) (a : ℚ),
      total_blinks (xs ++ [a]) =
        total_blinks xs +
          (if ¬ a < EYE_AR_THRESH ∧ 2 ≤ trailing_below xs then 1 else 0)) ∧
    total_blinks [3/10, 9/50, 9/50, 3/10] = 1 := by
  constructor
  · intro xs a
    unfold total_blinks
    rw [List.foldl_append]
    have hc : (xs.foldl blink_update (0, 0)).1 = trailing_below xs := by
      simpa [trailing_below] using blink_counter_eq_trailing xs (0, 0)
    set st := xs.foldl blink_update (0, 0) with hst
    rw [← hc]
    simp only [List.foldl]
    unfold blink_update
    by_cases ha : a < EYE_AR_THRESH <;> by_cases h2 : 2 ≤ st.1 <;> simp [ha, h2]
  · norm_num [total_blinks, blink_update, EYE_AR_THRESH]

/-! ## Claim theorems about the uploaded-audio captcha variant -/

/-- C9 counterexample: with the unparseable caller-supplied expression
`"twenty + three"` and a recognised spoken number, `verify_uploaded_audio`
returns `success = True` (confidence `0.5`), not a failed result. -/
theorem uploaded_audio_unparseable_counterexample :
    parse_expression "twenty + three" = none ∧
    (verify_uploaded_audio true (some "twenty + three") 0 (some "27")).success = true ∧
    (verify_uploaded_audio true (some "twenty + three") 0 (some "27")).confidence = 1/2 := by
  have hp : parse_expression "twenty + three" = none := by decide
  refine ⟨hp, ?_, ?_⟩ <;> simp [verify_uploaded_audio, hp]

/-- C9 amended: when the caller-supplied expression is unparseable the
expected answer becomes `None` and the step degrades to a
recognition-presence check: it succeeds with confidence `0.5` iff a spoken
number was recognised, and returns a failed result (confidence `0.0`) only
when none was. -/
theorem uploaded_audio_unparseable_amended (e : String) (fb : Int)
    (rn : Option String) (h : parse_expression e = none) :
    (verify_uploaded_audio true (some e) fb rn).success = rn.isSome ∧
    (verify_uploaded_audio true (some e) fb rn).confidence =
      (if rn.isSome then 1/2 else 0) := by
  simp [verify_uploaded_audio, h]

/-- Witness for the amended C9: the unparseable expression with no
recognised number yields a failed result. -/
theorem uploaded_audio_unparseable_amended_witness :
    (verify_uploaded_audio true (some "twenty + three") 0 none).success =
      (none : Option String).isSome ∧
    (verify_uploaded_audio true (some "twenty + three") 0 none).confidence =
      (if (none : Option String).isSome then 1/2 else 0) :=
  uploaded_audio_unparseable_amended "twenty + three" 0 none (by decide)

end FaceLiveness
